import Mathlib

/-!
Shallow embedding of the AMI migration orchestrator (pkg/ami/ami.go of
taemon1337/ami-migrate) and proofs of the specification claims.

Modelling conventions:
- The EC2 client is an oracle (`EC2Client`): one deterministic response
  function per provider operation.  Every provider call a service function
  makes is recorded, in program order, in a `List Call` trace returned next
  to the functional result.
- Go errors are strings; fallible operations return `Except String α`.
  Error wrapping `fmt.Errorf("ctx: %w", err)` becomes string concatenation.
- `time.Now().UTC().Format(time.RFC3339)` is modelled by a parameter
  `now : String` standing for the RFC3339 rendering of the wall clock at
  the start of the run.
- The goroutine fan-out of `MigrateInstances` is serialised in instance
  order: the tasks are independent (each one only writes tags of its own
  instance), so this records one admissible interleaving of the calls.
- The SDK state waiters poll `DescribeInstances` (read-only); the polling
  reads are not recorded as calls, only the waiter outcome, which the
  oracle supplies per instance id (`waitRunningResp` / `waitStoppedResp`).
- `RunInstances` is issued with MinCount = MaxCount = 1; a successful
  response is modelled as the single launched instance
  (`runResult.Instances[0]` in the source).
-/

namespace Ami

/-- A key/value tag, as `types.Tag` (pointers modelled as plain strings). -/
structure Tag where
  key : String
  value : String
deriving DecidableEq, Repr

/-- `types.InstanceStateName`. -/
inductive InstanceStateName where
  | pending
  | running
  | shuttingDown
  | terminated
  | stopping
  | stopped
deriving DecidableEq, Repr

/-- `types.EbsInstanceBlockDevice`: the EBS part of a block device mapping. -/
structure EbsInstanceBlockDevice where
  volumeId : String
deriving DecidableEq, Repr

/-- `types.InstanceBlockDeviceMapping`: `Ebs` is nil for non-EBS devices. -/
structure InstanceBlockDeviceMapping where
  ebs : Option EbsInstanceBlockDevice
deriving DecidableEq, Repr

/-- The fields of `types.Instance` the migrator reads. -/
structure Instance where
  instanceId : String
  state : InstanceStateName
  instanceType : String
  blockDeviceMappings : List InstanceBlockDeviceMapping
  tags : List Tag
deriving DecidableEq, Repr

/-- The fields of `types.Image` the migrator reads. -/
structure Image where
  imageId : String
deriving DecidableEq, Repr

/-- One reservation of a `DescribeInstances` response. -/
structure Reservation where
  instances : List Instance
deriving DecidableEq, Repr

/-- One recorded provider call (the EC2ClientAPI surface used by the core). -/
inductive Call where
  | describeImages (tagKey tagValue : String)
  | describeInstances (tagKey tagValue : String)
  | createSnapshot (volumeId description : String)
  | runInstances (imageId instanceType : String)
  | terminateInstances (instanceIds : List String)
  | stopInstances (instanceIds : List String)
  | startInstances (instanceIds : List String)
  | createTags (resources : List String) (tags : List Tag)
deriving DecidableEq, Repr

/-- The provider oracle: one deterministic response per operation.
`waitRunningResp` / `waitStoppedResp` give the outcome of the SDK state
waiters for a given instance id (an error on wait timeout). -/
structure EC2Client where
  describeImagesResp : String → String → Except String (List Image)
  describeInstancesResp : String → String → Except String (List Reservation)
  createSnapshotResp : String → String → Except String Unit
  runInstancesResp : String → String → Except String Instance
  terminateInstancesResp : List String → Except String Unit
  stopInstancesResp : List String → Except String Unit
  startInstancesResp : List String → Except String Unit
  createTagsResp : List String → List Tag → Except String Unit
  waitRunningResp : String → Except String Unit
  waitStoppedResp : String → Except String Unit

/-- `GetAMIWithTag`: looks an image up by tag; zero matches give `("", nil)`. -/
def GetAMIWithTag (c : EC2Client) (tagKey tagValue : String) :
    List Call × Except String String :=
  let call := Call.describeImages tagKey tagValue
  match c.describeImagesResp tagKey tagValue with
  | .error e => ([call], .error ("describe images: " ++ e))
  | .ok images =>
    match images with
    | [] => ([call], .ok "")
    | img :: _ => ([call], .ok img.imageId)

/-- The three audit tags written by `tagInstanceStatus`, in source order. -/
def statusTags (status message now : String) : List Tag :=
  [⟨"ami-migrate-status", status⟩,
   ⟨"ami-migrate-message", message⟩,
   ⟨"ami-migrate-timestamp", now⟩]

/-- `tagInstanceStatus`: writes the audit triple in one `CreateTags` call. -/
def tagInstanceStatus (c : EC2Client) (now : String) (inst : Instance)
    (status message : String) : List Call × Except String Unit :=
  ([Call.createTags [inst.instanceId] (statusTags status message now)],
   c.createTagsResp [inst.instanceId] (statusTags status message now))

/-- `copyTags`: copies every tag of the old instance except
`ami-migrate-status` to the new instance in one `CreateTags` call. -/
def copyTags (c : EC2Client) (oldInstance newInstance : Instance) :
    List Call × Except String Unit :=
  let tags := oldInstance.tags.filter (fun t => !(t.key == "ami-migrate-status"))
  ([Call.createTags [newInstance.instanceId] tags],
   c.createTagsResp [newInstance.instanceId] tags)

/-- `fetchEnabledInstances`: one `DescribeInstances` filtered on the
`ami-migrate` tag; the reservations are flattened into one instance list. -/
def fetchEnabledInstances (c : EC2Client) (enabledValue : String) :
    List Call × Except String (List Instance) :=
  ([Call.describeInstances "ami-migrate" enabledValue],
   match c.describeInstancesResp "ami-migrate" enabledValue with
   | .error e => .error e
   | .ok reservations => .ok (reservations.map Reservation.instances).flatten)

/-- `shouldMigrateInstance`: `(migrate, needsStart)`.  A running instance
needs the `ami-migrate-if-running=enabled` tag; any other state is eligible
outright.  The second component is false on every path. -/
def shouldMigrateInstance (inst : Instance) : Bool × Bool :=
  let isRunning := inst.state == InstanceStateName.running
  let hasIfRunningTag := inst.tags.any
    (fun tag => tag.key == "ami-migrate-if-running" && tag.value == "enabled")
  if isRunning then
    (hasIfRunningTag, false)
  else
    (true, false)

/-- `startInstance`: `StartInstances` then the running waiter. -/
def startInstance (c : EC2Client) (inst : Instance) :
    List Call × Except String Unit :=
  let call := Call.startInstances [inst.instanceId]
  match c.startInstancesResp [inst.instanceId] with
  | .error e => ([call], .error e)
  | .ok _ => ([call], c.waitRunningResp inst.instanceId)

/-- `stopInstance`: `StopInstances` then the stopped waiter. -/
def stopInstance (c : EC2Client) (inst : Instance) :
    List Call × Except String Unit :=
  let call := Call.stopInstances [inst.instanceId]
  match c.stopInstancesResp [inst.instanceId] with
  | .error e => ([call], .error e)
  | .ok _ => ([call], c.waitStoppedResp inst.instanceId)

/-- The snapshot description used by `upgradeInstance`. -/
def snapshotDescription (inst : Instance) : String :=
  "Backup before AMI migration for instance " ++ inst.instanceId

/-- The snapshot loop of `upgradeInstance`: one `CreateSnapshot` per
EBS-backed mapping; the first provider error aborts, wrapped with the
context string. -/
def createSnapshots (c : EC2Client) (inst : Instance) :
    List InstanceBlockDeviceMapping → List Call × Except String Unit
  | [] => ([], .ok ())
  | mapping :: rest =>
    match mapping.ebs with
    | none => createSnapshots c inst rest
    | some ebs =>
      let call := Call.createSnapshot ebs.volumeId (snapshotDescription inst)
      match c.createSnapshotResp ebs.volumeId (snapshotDescription inst) with
      | .error e => ([call], .error ("create snapshot: " ++ e))
      | .ok _ =>
        let r := createSnapshots c inst rest
        (call :: r.1, r.2)

/-- `upgradeInstance`: snapshot all EBS volumes, stop the source if it is
running, launch one replacement from the new image with the source
instance type, terminate the source, copy the tags. -/
def upgradeInstance (c : EC2Client) (newAMI : String) (inst : Instance) :
    List Call × Except String Unit :=
  let snap := createSnapshots c inst inst.blockDeviceMappings
  match snap.2 with
  | .error e => (snap.1, .error e)
  | .ok _ =>
    let stopStep : List Call × Except String Unit :=
      if inst.state == InstanceStateName.running then
        let r := stopInstance c inst
        (r.1, match r.2 with
              | .error e => .error ("stop instance: " ++ e)
              | .ok _ => .ok ())
      else ([], .ok ())
    match stopStep.2 with
    | .error e => (snap.1 ++ stopStep.1, .error e)
    | .ok _ =>
      let runCall := Call.runInstances newAMI inst.instanceType
      match c.runInstancesResp newAMI inst.instanceType with
      | .error e => (snap.1 ++ stopStep.1 ++ [runCall], .error ("run instances: " ++ e))
      | .ok newInst =>
        let termCall := Call.terminateInstances [inst.instanceId]
        match c.terminateInstancesResp [inst.instanceId] with
        | .error e =>
          (snap.1 ++ stopStep.1 ++ [runCall, termCall], .error ("terminate instance: " ++ e))
        | .ok _ =>
          let ct := copyTags c inst newInst
          match ct.2 with
          | .error e =>
            (snap.1 ++ stopStep.1 ++ [runCall, termCall] ++ ct.1, .error ("copy tags: " ++ e))
          | .ok _ =>
            (snap.1 ++ stopStep.1 ++ [runCall, termCall] ++ ct.1, .ok ())

/-- The goroutine body of `MigrateInstances` for one selected instance.
Audit-write results are discarded, as in the source; the task itself
returns no value, so only its call trace is recorded. -/
def migrateTask (c : EC2Client) (now newAMI : String) (inst : Instance)
    (needsStart : Bool) : List Call :=
  let progress := tagInstanceStatus c now inst "in-progress" "Starting migration"
  let startStep : List Call × Except String Unit :=
    if needsStart && !(inst.state == InstanceStateName.running) then
      startInstance c inst
    else ([], .ok ())
  match startStep.2 with
  | .error e =>
    progress.1 ++ startStep.1 ++
      (tagInstanceStatus c now inst "failed"
        ("Failed to start instance: " ++ e)).1
  | .ok _ =>
    let upgrade := upgradeInstance c newAMI inst
    match upgrade.2 with
    | .error e =>
      progress.1 ++ startStep.1 ++ upgrade.1 ++
        (tagInstanceStatus c now inst "failed"
          ("Failed to upgrade instance: " ++ e)).1
    | .ok _ =>
      let stopBack : List Call × Except String Unit :=
        if needsStart && !(inst.state == InstanceStateName.running) then
          stopInstance c inst
        else ([], .ok ())
      match stopBack.2 with
      | .error e =>
        progress.1 ++ startStep.1 ++ upgrade.1 ++ stopBack.1 ++
          (tagInstanceStatus c now inst "warning"
            ("Migration successful but failed to stop instance: " ++ e)).1
      | .ok _ =>
        progress.1 ++ startStep.1 ++ upgrade.1 ++ stopBack.1 ++
          (tagInstanceStatus c now inst "completed"
            "Migration completed successfully").1

/-- The fan-out loop of `MigrateInstances`, serialised in instance order:
ineligible instances get one `skipped` audit write; eligible ones run
`migrateTask`. -/
def migrateLoop (c : EC2Client) (now newAMI : String) :
    List Instance → List Call
  | [] => []
  | inst :: rest =>
    let decision := shouldMigrateInstance inst
    let calls :=
      if !decision.1 then
        (tagInstanceStatus c now inst "skipped"
          "Instance state or tags do not meet migration criteria").1
      else
        migrateTask c now newAMI inst decision.2
    calls ++ migrateLoop c now newAMI rest

/-- `MigrateInstances`: select the enabled instances, return the wrapped
error if the selection fails, return nil at zero instances, otherwise fan
out one task per instance and return nil. -/
def MigrateInstances (c : EC2Client) (now : String)
    (oldAMI newAMI enabledValue : String) : List Call × Except String Unit :=
  let fetch := fetchEnabledInstances c enabledValue
  match fetch.2 with
  | .error e => (fetch.1, .error ("fetch instances: " ++ e))
  | .ok instances =>
    if instances.length == 0 then
      (fetch.1, .ok ())
    else
      (fetch.1 ++ migrateLoop c now newAMI instances, .ok ())

end Ami

namespace Ami

/-! ### Helper lemmas about the embedded operations -/

/-- The second component of the eligibility decision is false on every path. -/
lemma shouldMigrateInstance_snd (i : Instance) :
    (shouldMigrateInstance i).2 = false := by
  simp only [shouldMigrateInstance]
  split <;> rfl

/-- The stop routine records exactly its one StopInstances call. -/
lemma stopInstance_calls (c : EC2Client) (i : Instance) :
    (stopInstance c i).1 = [Call.stopInstances [i.instanceId]] := by
  simp only [stopInstance]
  cases c.stopInstancesResp [i.instanceId] <;> rfl

/-- The start routine records exactly its one StartInstances call. -/
lemma startInstance_calls (c : EC2Client) (i : Instance) :
    (startInstance c i).1 = [Call.startInstances [i.instanceId]] := by
  simp only [startInstance]
  cases c.startInstancesResp [i.instanceId] <;> rfl

/-- Every call of the snapshot loop is a CreateSnapshot call for the
description of the given instance. -/
lemma createSnapshots_calls (c : EC2Client) (i : Instance)
    (ms : List InstanceBlockDeviceMapping) :
    ∀ call ∈ (createSnapshots c i ms).1,
      ∃ v, call = Call.createSnapshot v (snapshotDescription i) := by
  induction ms with
  | nil => intro call hc; simp [createSnapshots] at hc
  | cons m rest ih =>
    intro call hc
    rcases hm : m.ebs with _ | ebs
    · rw [createSnapshots, hm] at hc
      exact ih call hc
    · rw [createSnapshots, hm] at hc
      rcases hr : c.createSnapshotResp ebs.volumeId (snapshotDescription i) with e | u
      · simp only [hr] at hc
        simp at hc
        exact ⟨ebs.volumeId, hc⟩
      · simp only [hr] at hc
        simp at hc
        rcases hc with hc | hc
        · exact ⟨ebs.volumeId, hc⟩
        · exact ih call hc

/-- If some EBS-backed mapping has a failing snapshot response, the
snapshot loop returns a wrapped error (the first failure wins). -/
lemma createSnapshots_err (c : EC2Client) (i : Instance)
    (ms : List InstanceBlockDeviceMapping)
    (h : ∃ m ∈ ms, ∃ ebs, m.ebs = some ebs ∧
      ∃ e, c.createSnapshotResp ebs.volumeId (snapshotDescription i) = .error e) :
    ∃ e, (createSnapshots c i ms).2 = .error ("create snapshot: " ++ e) := by
  induction ms with
  | nil => simp at h
  | cons m rest ih =>
    rcases hm : m.ebs with _ | ebs
    · rw [createSnapshots, hm]
      apply ih
      rcases h with ⟨m', hmem, ebs', hebs', he⟩
      rcases List.mem_cons.mp hmem with rfl | hmem'
      · rw [hm] at hebs'; cases hebs'
      · exact ⟨m', hmem', ebs', hebs', he⟩
    · rw [createSnapshots, hm]
      rcases hr : c.createSnapshotResp ebs.volumeId (snapshotDescription i) with e | u
      · exact ⟨e, by simp [hr]⟩
      · simp only [hr]
        have hrest : ∃ m' ∈ rest, ∃ ebs', m'.ebs = some ebs' ∧
            ∃ e, c.createSnapshotResp ebs'.volumeId (snapshotDescription i) = .error e := by
          rcases h with ⟨m', hmem, ebs', hebs', e', he'⟩
          rcases List.mem_cons.mp hmem with rfl | hmem'
          · rw [hm] at hebs'
            cases hebs'
            rw [hr] at he'
            cases he'
          · exact ⟨m', hmem', ebs', hebs', e', he'⟩
        rcases ih hrest with ⟨e, he⟩
        exact ⟨e, he⟩

/-- Shape of one task when the transient-start flag is off and the upgrade
fails: in-progress write, the upgrade calls, then the failed audit write. -/
lemma migrateTask_false_err (c : EC2Client) (now newAMI : String) (i : Instance)
    (e : String) (he : (upgradeInstance c newAMI i).2 = .error e) :
    migrateTask c now newAMI i false =
      [Call.createTags [i.instanceId] (statusTags "in-progress" "Starting migration" now)] ++
      (upgradeInstance c newAMI i).1 ++
      [Call.createTags [i.instanceId]
        (statusTags "failed" ("Failed to upgrade instance: " ++ e) now)] := by
  simp [migrateTask, he, tagInstanceStatus]

/-- Shape of one task when the transient-start flag is off and the upgrade
succeeds: in-progress write, the upgrade calls, then the completed write. -/
lemma migrateTask_false_ok (c : EC2Client) (now newAMI : String) (i : Instance)
    (hok : (upgradeInstance c newAMI i).2 = .ok ()) :
    migrateTask c now newAMI i false =
      [Call.createTags [i.instanceId] (statusTags "in-progress" "Starting migration" now)] ++
      (upgradeInstance c newAMI i).1 ++
      [Call.createTags [i.instanceId]
        (statusTags "completed" "Migration completed successfully" now)] := by
  simp [migrateTask, hok, tagInstanceStatus]

/-- Status values the migrate run writes outside the unreachable
transient-stop branch. -/
def reachableStatuses : List String :=
  ["skipped", "in-progress", "failed", "completed"]

/-- What a call of a migrate run may look like: never a StartInstances
call, and every tag write carrying the audit-status key is a full audit
triple with a reachable status whose failed form carries the underlying
error text. -/
def GoodCall (now : String) (call : Call) : Prop :=
  (∀ ids, call ≠ Call.startInstances ids) ∧
  (∀ r tags, call = Call.createTags r tags →
    (∃ t ∈ tags, t.key = "ami-migrate-status") →
    ∃ st msg, tags = statusTags st msg now ∧
      st ∈ reachableStatuses ∧
      (st = "failed" → ∃ e, msg = "Failed to upgrade instance: " ++ e ∨
        msg = "Failed to start instance: " ++ e))

/-- An audit write with a reachable status is a good call. -/
lemma goodCall_statusWrite (now r st msg : String)
    (hst : st ∈ reachableStatuses)
    (hmsg : st = "failed" → ∃ e, msg = "Failed to upgrade instance: " ++ e ∨
      msg = "Failed to start instance: " ++ e) :
    GoodCall now (Call.createTags [r] (statusTags st msg now)) := by
  constructor
  · intro ids h
    cases h
  · intro r' tags' heq _
    cases heq
    exact ⟨st, msg, rfl, hst, hmsg⟩

/-- A tag write whose tags never carry the audit-status key is a good call. -/
lemma goodCall_noStatusKey (now : String) (r : List String) (tags : List Tag)
    (h : ∀ t ∈ tags, t.key ≠ "ami-migrate-status") :
    GoodCall now (Call.createTags r tags) := by
  constructor
  · intro ids heq
    cases heq
  · intro r' tags' heq hex
    cases heq
    rcases hex with ⟨t, hmem, hkey⟩
    exact absurd hkey (h t hmem)

/-- A call that is neither StartInstances nor CreateTags is a good call. -/
lemma goodCall_of_other (now : String) (call : Call)
    (h1 : ∀ ids, call ≠ Call.startInstances ids)
    (h2 : ∀ r tags, call ≠ Call.createTags r tags) :
    GoodCall now call := by
  constructor
  · exact h1
  · intro r tags heq
    exact absurd heq (h2 r tags)

/-- The tag-copy call filters the audit-status key out, so it is good. -/
lemma goodCall_copyTags (c : EC2Client) (now : String) (oldI newI : Instance) :
    ∀ call ∈ (copyTags c oldI newI).1, GoodCall now call := by
  intro call hc
  simp only [copyTags, List.mem_singleton] at hc
  subst hc
  apply goodCall_noStatusKey
  intro t hmem
  have := List.of_mem_filter hmem
  simpa using this


/-- Upgrade-stage calls are snapshots, the stop, the launch, the terminate
or the tag copy onto the launched instance. -/
lemma upgradeInstance_trace_sub (c : EC2Client) (newAMI : String) (i : Instance) :
    ∀ call ∈ (upgradeInstance c newAMI i).1,
      call ∈ (createSnapshots c i i.blockDeviceMappings).1 ∨
      call ∈ (stopInstance c i).1 ∨
      call = Call.runInstances newAMI i.instanceType ∨
      call = Call.terminateInstances [i.instanceId] ∨
      ∃ newInst, call ∈ (copyTags c i newInst).1 := by
  intro call hc
  simp only [upgradeInstance] at hc
  rcases h1 : (createSnapshots c i i.blockDeviceMappings).2 with e | u <;>
    simp only [h1] at hc
  · exact Or.inl hc
  · rcases h2 : (i.state == InstanceStateName.running) with _ | _ <;>
      simp [h2] at hc
    · rcases h4 : c.runInstancesResp newAMI i.instanceType with e | newInst <;>
        simp only [h4] at hc
      · simp at hc
        tauto
      · rcases h5 : c.terminateInstancesResp [i.instanceId] with e | u5 <;>
          simp only [h5] at hc
        · simp at hc
          tauto
        · rcases h6 : (copyTags c i newInst).2 with e | u6 <;>
            simp only [h6] at hc <;>
          · simp at hc
            rcases hc with hc | hc | hc | hc
            · tauto
            · tauto
            · tauto
            · exact Or.inr (Or.inr (Or.inr (Or.inr ⟨newInst, hc⟩)))
    · rcases h3 : (stopInstance c i).2 with e | u3 <;> simp only [h3] at hc
      · simp at hc
        tauto
      · rcases h4 : c.runInstancesResp newAMI i.instanceType with e | newInst <;>
          simp only [h4] at hc
        · simp at hc
          tauto
        · rcases h5 : c.terminateInstancesResp [i.instanceId] with e | u5 <;>
            simp only [h5] at hc
          · simp at hc
            tauto
          · rcases h6 : (copyTags c i newInst).2 with e | u6 <;>
              simp only [h6] at hc <;>
            · simp at hc
              rcases hc with hc | hc | hc | hc | hc
              · tauto
              · tauto
              · tauto
              · tauto
              · exact Or.inr (Or.inr (Or.inr (Or.inr ⟨newInst, hc⟩)))

/-- Every call of the replacement stage is good. -/
lemma upgradeInstance_calls (c : EC2Client) (now newAMI : String) (i : Instance) :
    ∀ call ∈ (upgradeInstance c newAMI i).1, GoodCall now call := by
  intro call hc
  rcases upgradeInstance_trace_sub c newAMI i call hc with h | h | h | h | ⟨newInst, h⟩
  · rcases createSnapshots_calls c i i.blockDeviceMappings call h with ⟨v, rfl⟩
    exact goodCall_of_other now _ (fun _ h => by cases h) (fun _ _ h => by cases h)
  · rw [stopInstance_calls] at h
    simp at h
    subst h
    exact goodCall_of_other now _ (fun _ h => by cases h) (fun _ _ h => by cases h)
  · subst h
    exact goodCall_of_other now _ (fun _ h => by cases h) (fun _ _ h => by cases h)
  · subst h
    exact goodCall_of_other now _ (fun _ h => by cases h) (fun _ _ h => by cases h)
  · exact goodCall_copyTags c now i newInst call h

/-- Every call of one fan-out task with the transient-start flag off is
good. -/
lemma migrateTask_calls (c : EC2Client) (now newAMI : String) (i : Instance) :
    ∀ call ∈ migrateTask c now newAMI i false, GoodCall now call := by
  intro call hc
  rcases hu : (upgradeInstance c newAMI i).2 with e | u
  · rw [migrateTask_false_err c now newAMI i e hu] at hc
    simp at hc
    rcases hc with hc | hc | hc
    · subst hc
      exact goodCall_statusWrite now i.instanceId "in-progress" "Starting migration"
        (by simp [reachableStatuses]) (by simp)
    · exact upgradeInstance_calls c now newAMI i call hc
    · subst hc
      exact goodCall_statusWrite now i.instanceId "failed"
        ("Failed to upgrade instance: " ++ e) (by simp [reachableStatuses])
        (fun _ => ⟨e, Or.inl rfl⟩)
  · rw [migrateTask_false_ok c now newAMI i (by rw [hu])] at hc
    simp at hc
    rcases hc with hc | hc | hc
    · subst hc
      exact goodCall_statusWrite now i.instanceId "in-progress" "Starting migration"
        (by simp [reachableStatuses]) (by simp)
    · exact upgradeInstance_calls c now newAMI i call hc
    · subst hc
      exact goodCall_statusWrite now i.instanceId "completed"
        "Migration completed successfully" (by simp [reachableStatuses]) (by simp)

/-- Every call of the fan-out loop is good. -/
lemma migrateLoop_calls (c : EC2Client) (now newAMI : String)
    (insts : List Instance) :
    ∀ call ∈ migrateLoop c now newAMI insts, GoodCall now call := by
  induction insts with
  | nil => intro call hc; simp [migrateLoop] at hc
  | cons i rest ih =>
    intro call hc
    rw [migrateLoop] at hc
    simp only [List.mem_append] at hc
    rcases hc with hc | hc
    · rcases hel : (shouldMigrateInstance i).1 with _ | _ <;> simp [hel] at hc
      · -- skipped write
        simp [tagInstanceStatus] at hc
        subst hc
        exact goodCall_statusWrite now i.instanceId "skipped"
          "Instance state or tags do not meet migration criteria"
          (by simp [reachableStatuses]) (by simp)
      · -- eligible: the needs-start flag is false on every path
        rw [shouldMigrateInstance_snd] at hc
        exact migrateTask_calls c now newAMI i call hc
    · exact ih call hc

/-- Every call of a full migrate run is good. -/
lemma migrate_calls (c : EC2Client) (now oldAMI newAMI enabledValue : String) :
    ∀ call ∈ (MigrateInstances c now oldAMI newAMI enabledValue).1,
      GoodCall now call := by
  intro call hc
  simp only [MigrateInstances, fetchEnabledInstances] at hc
  rcases hf : c.describeInstancesResp "ami-migrate" enabledValue with e | rs <;>
    simp only [hf] at hc
  · simp at hc
    subst hc
    exact goodCall_of_other now _ (fun _ h => by cases h) (fun _ _ h => by cases h)
  · rcases hlen : ((rs.map Reservation.instances).flatten.length == 0) with _ | _ <;>
      simp only [hlen] at hc <;> simp at hc
    · rcases hc with hc | hc
      · subst hc
        exact goodCall_of_other now _ (fun _ h => by cases h) (fun _ _ h => by cases h)
      · exact migrateLoop_calls c now newAMI _ call hc
    · subst hc
      exact goodCall_of_other now _ (fun _ h => by cases h) (fun _ _ h => by cases h)

/-! ### Concrete fixtures used to instantiate theorems with hypotheses -/

/-- True exactly for the provider calls that mutate provider state. -/
def Call.isMutation : Call → Bool
  | .describeImages _ _ => false
  | .describeInstances _ _ => false
  | _ => true

/-- The instance a successful launch returns in the fixtures. -/
def launchedInst : Instance :=
  { instanceId := "i-new", state := .pending, instanceType := "t3.micro"
    blockDeviceMappings := [], tags := [] }

/-- An oracle whose every response succeeds; its selection query returns
no reservations and its image query returns no images. -/
def allOkClient : EC2Client :=
  { describeImagesResp := fun _ _ => .ok []
    describeInstancesResp := fun _ _ => .ok []
    createSnapshotResp := fun _ _ => .ok ()
    runInstancesResp := fun _ _ => .ok launchedInst
    terminateInstancesResp := fun _ => .ok ()
    stopInstancesResp := fun _ => .ok ()
    startInstancesResp := fun _ => .ok ()
    createTagsResp := fun _ _ => .ok ()
    waitRunningResp := fun _ => .ok ()
    waitStoppedResp := fun _ => .ok () }

/-- A stopped instance with two EBS-backed volumes and the primary marker. -/
def stoppedTwoVolInst : Instance :=
  { instanceId := "i-2", state := .stopped, instanceType := "t3.micro"
    blockDeviceMappings := [⟨some ⟨"vol-a"⟩⟩, ⟨some ⟨"vol-b"⟩⟩]
    tags := [⟨"ami-migrate", "enabled"⟩] }

/-- A running instance with the primary marker but no if-running marker. -/
def runningNoIfTagInst : Instance :=
  { instanceId := "i-1", state := .running, instanceType := "t3.micro"
    blockDeviceMappings := [], tags := [⟨"ami-migrate", "enabled"⟩] }

/-- The all-ok oracle with a selection that returns the stopped instance. -/
def scenarioClient : EC2Client :=
  { allOkClient with
    describeInstancesResp := fun _ _ => .ok [⟨[stoppedTwoVolInst]⟩] }

/-- The all-ok oracle with a selection that returns the running instance
lacking the if-running marker. -/
def skipScenarioClient : EC2Client :=
  { allOkClient with
    describeInstancesResp := fun _ _ => .ok [⟨[runningNoIfTagInst]⟩] }

/-- The stopped-instance oracle with every snapshot request failing. -/
def snapFailClient : EC2Client :=
  { scenarioClient with
    createSnapshotResp := fun _ _ => .error "RequestLimitExceeded" }

/-! ### The claims -/

/-- C1: the migrate operation returns nil whenever the selection query
succeeds, regardless of per-instance task outcomes, and returns exactly
the selection error wrapped with the context string when it fails. -/
theorem C1_return_mirrors_selection (c : EC2Client)
    (now oldAMI newAMI enabledValue : String) :
    (MigrateInstances c now oldAMI newAMI enabledValue).2 =
      match c.describeInstancesResp "ami-migrate" enabledValue with
      | .error e => .error ("fetch instances: " ++ e)
      | .ok _ => .ok () := by
  simp only [MigrateInstances, fetchEnabledInstances]
  rcases h : c.describeInstancesResp "ami-migrate" enabledValue with e | rs <;>
    simp only [h]
  split <;> rfl

/-- C2: the decision function returns (true, false) exactly when the
instance, if running, carries the ami-migrate-if-running=enabled tag; a
non-running instance is eligible unconditionally; and the transient-start
component is false on every path, so a running instance without the tag is
not eligible. -/
theorem C2_eligibility_decision (i : Instance) :
    (shouldMigrateInstance i = (true, false) ↔
      (i.state = InstanceStateName.running →
        ∃ t ∈ i.tags, t.key = "ami-migrate-if-running" ∧ t.value = "enabled")) ∧
    (shouldMigrateInstance i).2 = false := by
  refine ⟨?_, shouldMigrateInstance_snd i⟩
  rcases hrun : (i.state == InstanceStateName.running) with _ | _
  · have hne : i.state ≠ InstanceStateName.running := by
      intro h
      rw [h] at hrun
      simp at hrun
    simp [shouldMigrateInstance, hrun, hne]
  · have heq : i.state = InstanceStateName.running := by
      simpa [beq_iff_eq] using hrun
    simp [shouldMigrateInstance, hrun, heq, Prod.ext_iff, List.any_eq_true]

/-- C4: the tag-copy step writes one CreateTags call on the replacement
whose tag list holds exactly the source tags that do not carry the
migration-status key, each byte-for-byte; the status key is never among
them. -/
theorem C4_tag_copy_filters_status (c : EC2Client) (oldI newI : Instance) :
    ∃ tags,
      (copyTags c oldI newI).1 = [Call.createTags [newI.instanceId] tags] ∧
      (∀ t, t ∈ tags ↔ (t ∈ oldI.tags ∧ t.key ≠ "ami-migrate-status")) ∧
      (∀ t ∈ tags, t.key ≠ "ami-migrate-status") := by
  refine ⟨oldI.tags.filter (fun t => !(t.key == "ami-migrate-status")), rfl, ?_, ?_⟩
  · intro t
    simp [List.mem_filter]
  · intro t ht
    simpa using List.of_mem_filter ht

/-- C10: when the image query succeeds with zero matches, GetAMIWithTag
returns the empty identifier with a nil error after its single read call,
so absence is signalled only through emptiness of the identifier. -/
theorem C10_absent_image_empty_ok (c : EC2Client) (tagKey tagValue : String)
    (h : c.describeImagesResp tagKey tagValue = .ok []) :
    (GetAMIWithTag c tagKey tagValue).2 = .ok "" ∧
    (GetAMIWithTag c tagKey tagValue).1 = [Call.describeImages tagKey tagValue] := by
  constructor <;> simp [GetAMIWithTag, h]

/-- Witness for C10 at a concrete oracle whose image query returns no
matches. -/
theorem C10_absent_image_empty_ok_witness :
    (GetAMIWithTag allOkClient "ami-migrate" "latest").2 = .ok "" ∧
    (GetAMIWithTag allOkClient "ami-migrate" "latest").1 =
      [Call.describeImages "ami-migrate" "latest"] :=
  C10_absent_image_empty_ok allOkClient "ami-migrate" "latest" rfl

/-- C6: when the selection query succeeds with zero instances, the migrate
operation returns success at once after only the selection read, and no
mutation call is issued. -/
theorem C6_zero_instances_noop (c : EC2Client)
    (now oldAMI newAMI enabledValue : String) (rs : List Reservation)
    (hresp : c.describeInstancesResp "ami-migrate" enabledValue = .ok rs)
    (hempty : (rs.map Reservation.instances).flatten = []) :
    (MigrateInstances c now oldAMI newAMI enabledValue).2 = .ok () ∧
    (MigrateInstances c now oldAMI newAMI enabledValue).1 =
      [Call.describeInstances "ami-migrate" enabledValue] ∧
    (∀ call ∈ (MigrateInstances c now oldAMI newAMI enabledValue).1,
      call.isMutation = false) := by
  have htr : MigrateInstances c now oldAMI newAMI enabledValue =
      ([Call.describeInstances "ami-migrate" enabledValue], .ok ()) := by
    simp [MigrateInstances, fetchEnabledInstances, hresp, hempty]
  refine ⟨by rw [htr], by rw [htr], ?_⟩
  intro call hc
  rw [htr] at hc
  simp at hc
  subst hc
  rfl

/-- Witness for C6 at a concrete oracle whose selection query returns no
reservations. -/
theorem C6_zero_instances_noop_witness :
    (MigrateInstances allOkClient "T" "ami-old" "ami-new" "enabled").2 = .ok () ∧
    (MigrateInstances allOkClient "T" "ami-old" "ami-new" "enabled").1 =
      [Call.describeInstances "ami-migrate" "enabled"] ∧
    (∀ call ∈ (MigrateInstances allOkClient "T" "ami-old" "ami-new" "enabled").1,
      call.isMutation = false) :=
  C6_zero_instances_noop allOkClient "T" "ami-old" "ami-new" "enabled" [] rfl rfl

/-- C7: the decision function never sets the transient-start flag, no
migrate run ever issues a StartInstances call, and no audit write of a run
ever carries the warning status that only the post-migration transient
stop could produce: that return-to-original-state step is unreachable. -/
theorem C7_transient_start_unreachable (i : Instance) (c : EC2Client)
    (now oldAMI newAMI enabledValue : String) :
    (shouldMigrateInstance i).2 = false ∧
    (∀ ids, Call.startInstances ids ∉
      (MigrateInstances c now oldAMI newAMI enabledValue).1) ∧
    (∀ r tags, Call.createTags r tags ∈
        (MigrateInstances c now oldAMI newAMI enabledValue).1 →
      Tag.mk "ami-migrate-status" "warning" ∉ tags) := by
  refine ⟨shouldMigrateInstance_snd i, ?_, ?_⟩
  · intro ids hmem
    exact (migrate_calls c now oldAMI newAMI enabledValue _ hmem).1 ids rfl
  · intro r tags hmem hwt
    rcases (migrate_calls c now oldAMI newAMI enabledValue _ hmem).2 r tags rfl
        ⟨_, hwt, rfl⟩ with ⟨st, msg, htags, hst, _⟩
    subst htags
    simp only [statusTags, List.mem_cons, List.not_mem_nil, or_false] at hwt
    rcases hwt with h1 | h1 | h1 <;> rw [Tag.mk.injEq] at h1
    · rw [← h1.2] at hst
      simp [reachableStatuses] at hst
    · exact absurd h1.1 (by decide)
    · exact absurd h1.1 (by decide)

/-- C8: the status recorder issues exactly one CreateTags call covering
exactly the three audit keys; every audit write of a migrate run uses one
of the five documented statuses and stamps the wall-clock value; and a
failed write carries a message embedding the underlying error text. -/
theorem C8_status_recorder_shape (c : EC2Client)
    (now oldAMI newAMI enabledValue status message : String) (i : Instance) :
    (tagInstanceStatus c now i status message).1 =
      [Call.createTags [i.instanceId]
        [⟨"ami-migrate-status", status⟩,
         ⟨"ami-migrate-message", message⟩,
         ⟨"ami-migrate-timestamp", now⟩]] ∧
    (∀ r tags, Call.createTags r tags ∈
        (MigrateInstances c now oldAMI newAMI enabledValue).1 →
      (∃ t ∈ tags, t.key = "ami-migrate-status") →
      ∃ st msg, tags = statusTags st msg now ∧
        st ∈ ["skipped", "in-progress", "failed", "warning", "completed"] ∧
        (st = "failed" → ∃ e, msg = "Failed to upgrade instance: " ++ e ∨
          msg = "Failed to start instance: " ++ e)) := by
  refine ⟨rfl, ?_⟩
  intro r tags hmem hex
  rcases (migrate_calls c now oldAMI newAMI enabledValue _ hmem).2 r tags rfl hex
    with ⟨st, msg, htags, hst, hmsg⟩
  refine ⟨st, msg, htags, ?_, hmsg⟩
  simp only [reachableStatuses, List.mem_cons, List.not_mem_nil, or_false] at hst
  rcases hst with h | h | h | h <;> simp [h]

/-- C5: when some EBS-backed volume of the instance has a failing snapshot
response, the replacement stage aborts with the wrapped create-snapshot
error, its whole trace consists of CreateSnapshot calls only (no launch
and no cleanup of the snapshots already created), and the task ends in the
failed audit write embedding that error. -/
theorem C5_snapshot_failure_aborts (c : EC2Client) (now newAMI : String)
    (i : Instance)
    (h : ∃ m ∈ i.blockDeviceMappings, ∃ ebs, m.ebs = some ebs ∧
      ∃ e, c.createSnapshotResp ebs.volumeId (snapshotDescription i) = .error e) :
    ∃ e,
      (upgradeInstance c newAMI i).2 = .error ("create snapshot: " ++ e) ∧
      (∀ call ∈ (upgradeInstance c newAMI i).1,
        ∃ v, call = Call.createSnapshot v (snapshotDescription i)) ∧
      (∀ img ty, Call.runInstances img ty ∉ (upgradeInstance c newAMI i).1) ∧
      migrateTask c now newAMI i false =
        [Call.createTags [i.instanceId]
          (statusTags "in-progress" "Starting migration" now)] ++
        (upgradeInstance c newAMI i).1 ++
        [Call.createTags [i.instanceId]
          (statusTags "failed"
            ("Failed to upgrade instance: " ++ ("create snapshot: " ++ e)) now)] := by
  rcases createSnapshots_err c i i.blockDeviceMappings h with ⟨e, he⟩
  have hup2 : (upgradeInstance c newAMI i).2 = .error ("create snapshot: " ++ e) := by
    simp [upgradeInstance, he]
  have hup1 : (upgradeInstance c newAMI i).1 =
      (createSnapshots c i i.blockDeviceMappings).1 := by
    simp [upgradeInstance, he]
  refine ⟨e, hup2, ?_, ?_, ?_⟩
  · rw [hup1]
    exact createSnapshots_calls c i i.blockDeviceMappings
  · intro img ty hmem
    rw [hup1] at hmem
    rcases createSnapshots_calls c i i.blockDeviceMappings _ hmem with ⟨v, hv⟩
    cases hv
  · exact migrateTask_false_err c now newAMI i ("create snapshot: " ++ e) hup2

/-- Witness for C5 at the concrete oracle whose snapshot requests fail. -/
theorem C5_snapshot_failure_aborts_witness :
    ∃ e,
      (upgradeInstance snapFailClient "ami-new" stoppedTwoVolInst).2 =
        .error ("create snapshot: " ++ e) ∧
      (∀ call ∈ (upgradeInstance snapFailClient "ami-new" stoppedTwoVolInst).1,
        ∃ v, call = Call.createSnapshot v (snapshotDescription stoppedTwoVolInst)) ∧
      (∀ img ty, Call.runInstances img ty ∉
        (upgradeInstance snapFailClient "ami-new" stoppedTwoVolInst).1) ∧
      migrateTask snapFailClient "T" "ami-new" stoppedTwoVolInst false =
        [Call.createTags [stoppedTwoVolInst.instanceId]
          (statusTags "in-progress" "Starting migration" "T")] ++
        (upgradeInstance snapFailClient "ami-new" stoppedTwoVolInst).1 ++
        [Call.createTags [stoppedTwoVolInst.instanceId]
          (statusTags "failed"
            ("Failed to upgrade instance: " ++ ("create snapshot: " ++ e)) "T")] :=
  C5_snapshot_failure_aborts snapFailClient "T" "ami-new" stoppedTwoVolInst
    ⟨⟨some ⟨"vol-a"⟩⟩, by simp [stoppedTwoVolInst], ⟨"vol-a"⟩, rfl,
      "RequestLimitExceeded", rfl⟩

/-- C3 counterexample: on the documented scenario (stopped instance i-2
with two EBS volumes, every provider call succeeding, launch returning
i-new) the final completed audit write targets the terminated source id
i-2, not the new instance id i-new, so the claim as stated is false. -/
theorem C3_final_audit_on_source_counterexample :
    ((MigrateInstances scenarioClient "T" "ami-old" "ami-new" "enabled").1).getLast? =
      some (Call.createTags ["i-2"]
        (statusTags "completed" "Migration completed successfully" "T")) ∧
    scenarioClient.runInstancesResp "ami-new" "t3.micro" = .ok launchedInst ∧
    launchedInst.instanceId = "i-new" ∧
    ("i-2" : String) ≠ "i-new" := by
  exact ⟨rfl, rfl, rfl, by decide⟩

/-- C3 (amended): for a stopped eligible instance with two EBS-backed
volumes and a successful run, the trace is exactly two CreateSnapshot
calls, one RunInstances with the new image and the source instance type,
TerminateInstances on the source id, CreateTags on the new instance with
the source tags minus the status tag, and a final completed audit triple
written on the SOURCE instance id. -/
theorem C3_stopped_two_volume_sequence (c : EC2Client)
    (now oldAMI newAMI va vb : String) (i newInst : Instance)
    (hstate : i.state = InstanceStateName.stopped)
    (hvols : i.blockDeviceMappings = [⟨some ⟨va⟩⟩, ⟨some ⟨vb⟩⟩])
    (hfetch : c.describeInstancesResp "ami-migrate" "enabled" = .ok [⟨[i]⟩])
    (hsnapA : c.createSnapshotResp va (snapshotDescription i) = .ok ())
    (hsnapB : c.createSnapshotResp vb (snapshotDescription i) = .ok ())
    (hrun : c.runInstancesResp newAMI i.instanceType = .ok newInst)
    (hterm : c.terminateInstancesResp [i.instanceId] = .ok ())
    (hcopy : c.createTagsResp [newInst.instanceId]
      (i.tags.filter (fun t => !(t.key == "ami-migrate-status"))) = .ok ()) :
    (MigrateInstances c now oldAMI newAMI "enabled").1 =
      [Call.describeInstances "ami-migrate" "enabled",
       Call.createTags [i.instanceId]
         (statusTags "in-progress" "Starting migration" now),
       Call.createSnapshot va (snapshotDescription i),
       Call.createSnapshot vb (snapshotDescription i),
       Call.runInstances newAMI i.instanceType,
       Call.terminateInstances [i.instanceId],
       Call.createTags [newInst.instanceId]
         (i.tags.filter (fun t => !(t.key == "ami-migrate-status"))),
       Call.createTags [i.instanceId]
         (statusTags "completed" "Migration completed successfully" now)] ∧
    (MigrateInstances c now oldAMI newAMI "enabled").2 = .ok () := by
  have hnotrun : (i.state == InstanceStateName.running) = false := by
    simp [hstate]
  have hsnaps : createSnapshots c i i.blockDeviceMappings =
      ([Call.createSnapshot va (snapshotDescription i),
        Call.createSnapshot vb (snapshotDescription i)], .ok ()) := by
    rw [hvols]
    simp [createSnapshots, hsnapA, hsnapB]
  have hct : copyTags c i newInst =
      ([Call.createTags [newInst.instanceId]
          (i.tags.filter (fun t => !(t.key == "ami-migrate-status")))],
        .ok ()) := by
    simp [copyTags, hcopy]
  have hup : upgradeInstance c newAMI i =
      ([Call.createSnapshot va (snapshotDescription i),
        Call.createSnapshot vb (snapshotDescription i),
        Call.runInstances newAMI i.instanceType,
        Call.terminateInstances [i.instanceId],
        Call.createTags [newInst.instanceId]
          (i.tags.filter (fun t => !(t.key == "ami-migrate-status")))],
        .ok ()) := by
    simp [upgradeInstance, hsnaps, hnotrun, hrun, hterm, hct]
  have hel : shouldMigrateInstance i = (true, false) := by
    simp [shouldMigrateInstance, hnotrun]
  have htask : migrateTask c now newAMI i false =
      [Call.createTags [i.instanceId]
        (statusTags "in-progress" "Starting migration" now)] ++
      (upgradeInstance c newAMI i).1 ++
      [Call.createTags [i.instanceId]
        (statusTags "completed" "Migration completed successfully" now)] :=
    migrateTask_false_ok c now newAMI i (by rw [hup])
  constructor
  · simp only [MigrateInstances, fetchEnabledInstances, hfetch]
    simp [migrateLoop, hel, htask, hup]
  · simp [MigrateInstances, fetchEnabledInstances, hfetch]

/-- Witness for the amended C3 at the concrete scenario oracle. -/
theorem C3_stopped_two_volume_sequence_witness :
    (MigrateInstances scenarioClient "T" "ami-old" "ami-new" "enabled").1 =
      [Call.describeInstances "ami-migrate" "enabled",
       Call.createTags [stoppedTwoVolInst.instanceId]
         (statusTags "in-progress" "Starting migration" "T"),
       Call.createSnapshot "vol-a" (snapshotDescription stoppedTwoVolInst),
       Call.createSnapshot "vol-b" (snapshotDescription stoppedTwoVolInst),
       Call.runInstances "ami-new" stoppedTwoVolInst.instanceType,
       Call.terminateInstances [stoppedTwoVolInst.instanceId],
       Call.createTags [launchedInst.instanceId]
         (stoppedTwoVolInst.tags.filter
           (fun t => !(t.key == "ami-migrate-status"))),
       Call.createTags [stoppedTwoVolInst.instanceId]
         (statusTags "completed" "Migration completed successfully" "T")] ∧
    (MigrateInstances scenarioClient "T" "ami-old" "ami-new" "enabled").2 = .ok () :=
  C3_stopped_two_volume_sequence scenarioClient "T" "ami-old" "ami-new"
    "vol-a" "vol-b" stoppedTwoVolInst launchedInst rfl rfl rfl rfl rfl rfl rfl rfl

/-- The fan-out loop distributes over list append. -/
lemma migrateLoop_append (c : EC2Client) (now newAMI : String)
    (xs ys : List Instance) :
    migrateLoop c now newAMI (xs ++ ys) =
      migrateLoop c now newAMI xs ++ migrateLoop c now newAMI ys := by
  induction xs with
  | nil => simp [migrateLoop]
  | cons x xs ih =>
    rw [List.cons_append, migrateLoop, migrateLoop, ih, List.append_assoc]

/-- C9 counterexample: for a running instance with only the primary
marker, the skipped write carries the literal source message, which is not
the string the claim quotes. -/
theorem C9_skipped_message_counterexample :
    (MigrateInstances skipScenarioClient "T" "ami-old" "ami-new" "enabled").1 =
      [Call.describeInstances "ami-migrate" "enabled",
       Call.createTags ["i-1"]
         (statusTags "skipped"
           "Instance state or tags do not meet migration criteria" "T")] ∧
    "Instance state or tags do not meet migration criteria" ≠
      "criteria not met" := by
  exact ⟨rfl, by decide⟩

/-- C9 (amended): every selected instance failing the eligibility check
contributes exactly one skipped audit write with the message "Instance
state or tags do not meet migration criteria" to the run, and no
migration-task call is made for it. -/
theorem C9_ineligible_skipped_only (c : EC2Client)
    (now oldAMI newAMI enabledValue : String) (rs : List Reservation)
    (pre post : List Instance) (i : Instance)
    (hfetch : c.describeInstancesResp "ami-migrate" enabledValue = .ok rs)
    (hsplit : (rs.map Reservation.instances).flatten = pre ++ i :: post)
    (hel : (shouldMigrateInstance i).1 = false) :
    (MigrateInstances c now oldAMI newAMI enabledValue).1 =
      Call.describeInstances "ami-migrate" enabledValue ::
      (migrateLoop c now newAMI pre ++
       [Call.createTags [i.instanceId]
         (statusTags "skipped"
           "Instance state or tags do not meet migration criteria" now)] ++
       migrateLoop c now newAMI post) := by
  have hloop : migrateLoop c now newAMI (pre ++ i :: post) =
      migrateLoop c now newAMI pre ++
      [Call.createTags [i.instanceId]
        (statusTags "skipped"
          "Instance state or tags do not meet migration criteria" now)] ++
      migrateLoop c now newAMI post := by
    rw [migrateLoop_append, migrateLoop]
    simp [hel, tagInstanceStatus]
  have hne : ((pre ++ i :: post).length == 0) = false := by
    simp
  simp only [MigrateInstances, fetchEnabledInstances, hfetch, hsplit, hne]
  simp [hloop]

/-- Witness for the amended C9 at the concrete ineligible instance. -/
theorem C9_ineligible_skipped_only_witness :
    (MigrateInstances skipScenarioClient "T" "ami-old" "ami-new" "enabled").1 =
      Call.describeInstances "ami-migrate" "enabled" ::
      (migrateLoop skipScenarioClient "T" "ami-new" [] ++
       [Call.createTags [runningNoIfTagInst.instanceId]
         (statusTags "skipped"
           "Instance state or tags do not meet migration criteria" "T")] ++
       migrateLoop skipScenarioClient "T" "ami-new" []) :=
  C9_ineligible_skipped_only skipScenarioClient "T" "ami-old" "ami-new" "enabled"
    [⟨[runningNoIfTagInst]⟩] [] [] runningNoIfTagInst rfl rfl rfl

end Ami
